import Mathlib

/-!
Shallow embedding of the mixture-calculation engine of `mixconc.py`
(unit tables, solute-mass calculator, concentration back-converter,
two-component solver, and the three aggregation modes), over exact
rational arithmetic.  Units are the literal strings the source
dispatches on; fallible functions return `Except`.
-/

namespace Mixconc

/-- Mass-unit table `MASS_UNIT_TO_G` of the source: factor to grams. -/
def MASS_UNIT_TO_G (u : String) : Option ℚ :=
  if u = "μg" then some (1/1000000)
  else if u = "mg" then some (1/1000)
  else if u = "g" then some 1
  else if u = "kg" then some 1000
  else none

/-- Volume-unit table `VOL_UNIT_TO_ML` of the source: factor to millilitres. -/
def VOL_UNIT_TO_ML (u : String) : Option ℚ :=
  if u = "μL" then some (1/1000)
  else if u = "mL" then some 1
  else if u = "L" then some 1000
  else none

/-- Mass-concentration table `CONC_MASS_UNIT_TO_G_PER_L` of the source:
factor to g/L; `none` when the unit is not a mass-concentration unit
(the source tests `unit in CONC_MASS_UNIT_TO_G_PER_L`). -/
def CONC_MASS_UNIT_TO_G_PER_L (u : String) : Option ℚ :=
  if u = "μg/L" then some (1/1000000)
  else if u = "mg/L" then some (1/1000)
  else if u = "g/L" then some 1
  else none

/-- `get_water_density` of the source. -/
def get_water_density (t : ℚ) : ℚ := 1 - (3/10000) * (t - 4)

/-- `get_saline_density` of the source. -/
def get_saline_density (t : ℚ) : ℚ := 1004/1000 - (3/10000) * (t - 20)

/-- `calculate_solute_mass` of the source: absolute solute mass in grams,
dispatching on the concentration-unit string. -/
def calculate_solute_mass (conc : ℚ) (unit : String) (molar_mass density total_mass_g : ℚ) : ℚ :=
  match CONC_MASS_UNIT_TO_G_PER_L unit with
  | some conv =>
      let vol_L := (total_mass_g / density) / 1000
      let conc_g_L := conc * conv
      conc_g_L * vol_L
  | none =>
      if unit = "mmol/L" ∨ unit = "mol/L" then
        let vol_L := (total_mass_g / density) / 1000
        let factor : ℚ := if unit = "mmol/L" then 1/1000 else 1
        (conc * factor) * vol_L * molar_mass
      else if unit = "% (w/w)" then
        (conc / 100) * total_mass_g
      else if unit = "% (v/v)" then
        let vol_total := total_mass_g / density
        let vol_solute := (conc / 100) * vol_total
        vol_solute * density
      else 0

/-- `convert_solute_to_target_unit` of the source: concentration in the
target unit from solute grams and mixture totals. -/
def convert_solute_to_target_unit (solute_g total_mass_g total_vol_ml : ℚ)
    (target_unit : String) (ref_molar_mass : ℚ) : ℚ :=
  if total_mass_g ≤ 1/10^9 ∨ total_vol_ml ≤ 1/10^9 then 0
  else if target_unit = "% (w/w)" then (solute_g / total_mass_g) * 100
  else if target_unit = "% (v/v)" then (solute_g / total_mass_g) * 100
  else
    let total_vol_L := total_vol_ml / 1000
    if target_unit = "g/L" then solute_g / total_vol_L
    else if target_unit = "mg/L" then (solute_g * 1000) / total_vol_L
    else if target_unit = "μg/L" then (solute_g * 1000000) / total_vol_L
    else if target_unit = "mol/L" then (solute_g / ref_molar_mass) / total_vol_L
    else if target_unit = "mmol/L" then ((solute_g / ref_molar_mass) * 1000) / total_vol_L
    else 0

/-- Error outcomes of `solve_two_component_mixture`, one constructor per
message string returned by the source; `outOfRange` carries the bounds the
message reports. -/
inductive SolveError where
  | noConcentration : SolveError
  | outOfRange (min_c max_c : ℚ) : SolveError
  | identicalConcentration : SolveError
  | targetEqualsComponent1 : SolveError
deriving DecidableEq, Repr

/-- `solve_two_component_mixture` of the source: the Python returns
`(None, msg)` on failure and `((m1, m2), None)` on success, embedded here
as `Except SolveError (ℚ × ℚ)`. -/
def solve_two_component_mixture (c1 d1 c2 d2 target_vol_ml target_conc : ℚ)
    (unit : String) : Except SolveError (ℚ × ℚ) :=
  if c1 = 0 ∧ c2 = 0 then .error .noConcentration
  else
    let epsilon : ℚ := 1/10^7
    let min_c := min c1 c2
    let max_c := max c1 c2
    if ¬ (min_c - epsilon ≤ target_conc ∧ target_conc ≤ max_c + epsilon) then
      .error (.outOfRange min_c max_c)
    else if |c1 - c2| < epsilon then
      .error .identicalConcentration
    else if unit ≠ "% (w/w)" then
      let v1 := target_vol_ml * (target_conc - c2) / (c1 - c2)
      let v2 := target_vol_ml - v1
      .ok (v1 * d1, v2 * d2)
    else
      if |c1 - target_conc| < epsilon then .error .targetEqualsComponent1
      else
        let ratio_m1_m2 := (target_conc - c2) / (c1 - target_conc)
        let m2 := target_vol_ml / (ratio_m1_m2 / d1 + 1 / d2)
        let m1 := m2 * ratio_m1_m2
        .ok (m1, m2)

/-- One row of `materials_input`: concentration, declared mass (in the
session's mass unit), density (g/mL) and molar mass. -/
structure MaterialInput where
  conc : ℚ
  mass : ℚ
  density : ℚ
  molar_mass : ℚ
deriving DecidableEq, Repr

/-- One row of `final_materials`: the input fields plus the derived
`质量(g)` (massGrams), `体积(mL)` (volumeML) and `溶质质量(g)`
(soluteMassGrams) columns. -/
structure ComputedRecord where
  conc : ℚ
  mass : ℚ
  density : ℚ
  molar_mass : ℚ
  massGrams : ℚ
  volumeML : ℚ
  soluteMassGrams : ℚ
deriving DecidableEq, Repr

/-- Derivation shared by all three aggregation modes of the source: once a
component's mass in grams is fixed, its volume is `mass / density` and its
solute mass comes from `calculate_solute_mass` at that total mass. -/
def mkRecord (item : MaterialInput) (conc_unit : String) (mass_g : ℚ) : ComputedRecord :=
  { conc := item.conc, mass := item.mass, density := item.density,
    molar_mass := item.molar_mass,
    massGrams := mass_g,
    volumeML := mass_g / item.density,
    soluteMassGrams :=
      calculate_solute_mass item.conc conc_unit item.molar_mass item.density mass_g }

/-- Solve-mode aggregation of the source (`is_valid_solve` branch): the
two components' masses come from the solver; on solver error no records
are produced. -/
def solveModeRecords (m1 m2 : MaterialInput) (conc_unit : String)
    (target_vol_ml target_conc : ℚ) : Except SolveError (List ComputedRecord) :=
  match solve_two_component_mixture m1.conc m1.density m2.conc m2.density
      target_vol_ml target_conc conc_unit with
  | .error e => .error e
  | .ok (g1, g2) => .ok [mkRecord m1 conc_unit g1, mkRecord m2 conc_unit g2]

/-- The `base_vol` of scale mode: sum of declared volumes, where
`mass_unit_factor` stands for the table value `MASS_UNIT_TO_G[mass_unit]`
(the sidebar restricts `mass_unit` to the table's keys, so the dictionary
lookup always succeeds). -/
def scaleBaseVol (materials : List MaterialInput) (mass_unit_factor : ℚ) : ℚ :=
  (materials.map (fun item => (item.mass * mass_unit_factor) / item.density)).sum

/-- The `scaling_factor` of scale mode: `target_vol_ml / base_vol` when
`base_vol > 0`, else `0`. -/
def scalingFactor (materials : List MaterialInput) (mass_unit_factor target_vol_ml : ℚ) : ℚ :=
  if scaleBaseVol materials mass_unit_factor > 0 then
    target_vol_ml / scaleBaseVol materials mass_unit_factor
  else 0

/-- Scale-mode aggregation of the source (`target_vol_ml > 0` and not a
valid solve): every declared mass is scaled by the uniform factor. -/
def scaleModeRecords (materials : List MaterialInput) (mass_unit_factor : ℚ)
    (conc_unit : String) (target_vol_ml : ℚ) : List ComputedRecord :=
  materials.map (fun item =>
    mkRecord item conc_unit
      ((item.mass * mass_unit_factor) * scalingFactor materials mass_unit_factor target_vol_ml))

/-- Direct-mode aggregation of the source (no target volume): each
component's mass is its declared mass converted to grams. -/
def directModeRecords (materials : List MaterialInput) (mass_unit_factor : ℚ)
    (conc_unit : String) : List ComputedRecord :=
  materials.map (fun item => mkRecord item conc_unit (item.mass * mass_unit_factor))

/-- Mixture totals of the source: columnwise sums `theo_mass_g`,
`theo_vol_ml`, `theo_solute_g` over the computed records. -/
def mixtureTotals (records : List ComputedRecord) : ℚ × ℚ × ℚ :=
  ((records.map (fun r => r.massGrams)).sum,
   (records.map (fun r => r.volumeML)).sum,
   (records.map (fun r => r.soluteMassGrams)).sum)

end Mixconc

namespace Mixconc

/-! Helper lemmas: branch selection in `solve_two_component_mixture`. -/

/-- Check 1: both concentrations zero. -/
theorem solve_err_noConc (c1 d1 c2 d2 tv tc : ℚ) (u : String)
    (h : c1 = 0 ∧ c2 = 0) :
    solve_two_component_mixture c1 d1 c2 d2 tv tc u = .error .noConcentration := by
  simp only [solve_two_component_mixture]
  rw [if_pos h]

/-- Check 2: target concentration out of range. -/
theorem solve_err_range (c1 d1 c2 d2 tv tc : ℚ) (u : String)
    (h1 : ¬(c1 = 0 ∧ c2 = 0))
    (h2 : ¬(min c1 c2 - 1/10^7 ≤ tc ∧ tc ≤ max c1 c2 + 1/10^7)) :
    solve_two_component_mixture c1 d1 c2 d2 tv tc u =
      .error (.outOfRange (min c1 c2) (max c1 c2)) := by
  simp only [solve_two_component_mixture]
  rw [if_neg h1, if_pos h2]

/-- Check 3: identical concentrations. -/
theorem solve_err_identical (c1 d1 c2 d2 tv tc : ℚ) (u : String)
    (h1 : ¬(c1 = 0 ∧ c2 = 0))
    (h2 : min c1 c2 - 1/10^7 ≤ tc ∧ tc ≤ max c1 c2 + 1/10^7)
    (h3 : |c1 - c2| < 1/10^7) :
    solve_two_component_mixture c1 d1 c2 d2 tv tc u = .error .identicalConcentration := by
  simp only [solve_two_component_mixture]
  rw [if_neg h1, if_neg (not_not_intro h2), if_pos h3]

/-- Volume-based formula branch, in the orientation the source computes. -/
theorem solve_vol_formula (c1 d1 c2 d2 tv tc : ℚ) (u : String)
    (hu : u ≠ "% (w/w)")
    (h1 : ¬(c1 = 0 ∧ c2 = 0))
    (h2 : min c1 c2 - 1/10^7 ≤ tc ∧ tc ≤ max c1 c2 + 1/10^7)
    (h3 : ¬ |c1 - c2| < 1/10^7) :
    solve_two_component_mixture c1 d1 c2 d2 tv tc u =
      .ok (tv * (tc - c2) / (c1 - c2) * d1,
           (tv - tv * (tc - c2) / (c1 - c2)) * d2) := by
  simp only [solve_two_component_mixture]
  rw [if_neg h1, if_neg (not_not_intro h2), if_neg h3, if_pos hu]

/-- Mass-based branch, division-by-zero guard. -/
theorem solve_ww_err (c1 d1 c2 d2 tv tc : ℚ)
    (h1 : ¬(c1 = 0 ∧ c2 = 0))
    (h2 : min c1 c2 - 1/10^7 ≤ tc ∧ tc ≤ max c1 c2 + 1/10^7)
    (h3 : ¬ |c1 - c2| < 1/10^7)
    (h4 : |c1 - tc| < 1/10^7) :
    solve_two_component_mixture c1 d1 c2 d2 tv tc "% (w/w)" =
      .error .targetEqualsComponent1 := by
  simp only [solve_two_component_mixture]
  rw [if_neg h1, if_neg (not_not_intro h2), if_neg h3,
    if_neg (not_not_intro rfl), if_pos h4]

/-- Mass-based formula branch, in the orientation the source computes. -/
theorem solve_ww_formula (c1 d1 c2 d2 tv tc : ℚ)
    (h1 : ¬(c1 = 0 ∧ c2 = 0))
    (h2 : min c1 c2 - 1/10^7 ≤ tc ∧ tc ≤ max c1 c2 + 1/10^7)
    (h3 : ¬ |c1 - c2| < 1/10^7)
    (h4 : ¬ |c1 - tc| < 1/10^7) :
    solve_two_component_mixture c1 d1 c2 d2 tv tc "% (w/w)" =
      .ok (tv / ((tc - c2) / (c1 - tc) / d1 + 1 / d2) * ((tc - c2) / (c1 - tc)),
           tv / ((tc - c2) / (c1 - tc) / d1 + 1 / d2)) := by
  simp only [solve_two_component_mixture]
  rw [if_neg h1, if_neg (not_not_intro h2), if_neg h3,
    if_neg (not_not_intro rfl), if_neg h4]

end Mixconc

namespace Mixconc

/-- C1: in any volume-based unit (any unit other than weight-percent), an
input passing all three precondition checks yields
`mass1 = d1 * tv * (tc - c2) / (c1 - c2)` and
`mass2 = d2 * (tv - tv * (tc - c2) / (c1 - c2))`. -/
theorem solve_volume_based_correct (c1 d1 c2 d2 tv tc : ℚ) (u : String)
    (hu : u ≠ "% (w/w)")
    (h1 : ¬(c1 = 0 ∧ c2 = 0))
    (h2 : min c1 c2 - 1/10^7 ≤ tc ∧ tc ≤ max c1 c2 + 1/10^7)
    (h3 : ¬ |c1 - c2| < 1/10^7) :
    solve_two_component_mixture c1 d1 c2 d2 tv tc u =
      .ok (d1 * tv * (tc - c2) / (c1 - c2),
           d2 * (tv - tv * (tc - c2) / (c1 - c2))) := by
  rw [solve_vol_formula c1 d1 c2 d2 tv tc u hu h1 h2 h3]
  have e1 : tv * (tc - c2) / (c1 - c2) * d1 = d1 * tv * (tc - c2) / (c1 - c2) := by
    ring
  rw [e1, mul_comm _ d2]

/-- C1 witness: the spec's concrete volume-based instance
`solveTwoComponent(0, 1.0, 100, 1.2, 100, 40, "g/L")` succeeds with
`mass1 = 60` and `mass2 = 48` (exactly, hence within `1e-6`). -/
theorem solve_volume_based_correct_witness :
    solve_two_component_mixture 0 1 100 (6/5) 100 40 "g/L" = .ok (60, 48) := by
  rw [solve_volume_based_correct 0 1 100 (6/5) 100 40 "g/L" (by decide)
    (by norm_num) (by constructor <;> norm_num) (by norm_num)]
  norm_num

/-- C3: the solver applies its three failure checks in a fixed order —
both-zero concentrations first, then the range check, then the
identical-concentration check — and only inputs passing all three reach a
formula branch; in particular `c1 = c2 = 0` yields the no-concentration
error even though the identical-concentration condition also holds there. -/
theorem solve_check_order :
    (∀ (c1 d1 c2 d2 tv tc : ℚ) (u : String), c1 = 0 → c2 = 0 →
      solve_two_component_mixture c1 d1 c2 d2 tv tc u = .error .noConcentration)
  ∧ (∀ (c1 d1 c2 d2 tv tc : ℚ) (u : String), ¬(c1 = 0 ∧ c2 = 0) →
      ¬(min c1 c2 - 1/10^7 ≤ tc ∧ tc ≤ max c1 c2 + 1/10^7) →
      solve_two_component_mixture c1 d1 c2 d2 tv tc u =
        .error (.outOfRange (min c1 c2) (max c1 c2)))
  ∧ (∀ (c1 d1 c2 d2 tv tc : ℚ) (u : String), ¬(c1 = 0 ∧ c2 = 0) →
      (min c1 c2 - 1/10^7 ≤ tc ∧ tc ≤ max c1 c2 + 1/10^7) →
      |c1 - c2| < 1/10^7 →
      solve_two_component_mixture c1 d1 c2 d2 tv tc u = .error .identicalConcentration)
  ∧ (∀ (c1 d1 c2 d2 tv tc : ℚ) (u : String), ¬(c1 = 0 ∧ c2 = 0) →
      (min c1 c2 - 1/10^7 ≤ tc ∧ tc ≤ max c1 c2 + 1/10^7) →
      ¬ |c1 - c2| < 1/10^7 →
      (∃ p, solve_two_component_mixture c1 d1 c2 d2 tv tc u = .ok p) ∨
        solve_two_component_mixture c1 d1 c2 d2 tv tc u = .error .targetEqualsComponent1)
  ∧ (∀ (d1 d2 tv tc : ℚ) (u : String), |(0 : ℚ) - 0| < 1/10^7 ∧
      solve_two_component_mixture 0 d1 0 d2 tv tc u = .error .noConcentration) := by
  refine ⟨?_, ?_, ?_, ?_, ?_⟩
  · intro c1 d1 c2 d2 tv tc u e1 e2
    exact solve_err_noConc c1 d1 c2 d2 tv tc u ⟨e1, e2⟩
  · intro c1 d1 c2 d2 tv tc u h1 h2
    exact solve_err_range c1 d1 c2 d2 tv tc u h1 h2
  · intro c1 d1 c2 d2 tv tc u h1 h2 h3
    exact solve_err_identical c1 d1 c2 d2 tv tc u h1 h2 h3
  · intro c1 d1 c2 d2 tv tc u h1 h2 h3
    by_cases hu : u = "% (w/w)"
    · subst hu
      by_cases h4 : |c1 - tc| < 1/10^7
      · exact Or.inr (solve_ww_err c1 d1 c2 d2 tv tc h1 h2 h3 h4)
      · exact Or.inl ⟨_, solve_ww_formula c1 d1 c2 d2 tv tc h1 h2 h3 h4⟩
    · exact Or.inl ⟨_, solve_vol_formula c1 d1 c2 d2 tv tc u hu h1 h2 h3⟩
  · intro d1 d2 tv tc u
    refine ⟨by norm_num, solve_err_noConc 0 d1 0 d2 tv tc u ⟨rfl, rfl⟩⟩

/-- C3 witness: at `c1 = c2 = 0` (identical concentrations as well), the
no-concentration error is the one returned. -/
theorem solve_check_order_witness :
    |(0 : ℚ) - 0| < 1/10^7 ∧
    solve_two_component_mixture 0 1 0 (3/2) 50 0 "g/L" = .error .noConcentration :=
  solve_check_order.2.2.2.2 1 (3/2) 50 0 "g/L"

/-- C4: in the weight-percent unit, an input passing the three common
checks either hits the target-equals-component-1 guard (when
`|c1 - tc| < 1e-7`) or returns `mass2 = tv / (ratio/d1 + 1/d2)` and
`mass1 = mass2 * ratio` with `ratio = (tc - c2) / (c1 - tc)`; the
`target_vol_ml` argument is read as a target total mass in grams here. -/
theorem solve_weight_percent_correct (c1 d1 c2 d2 tv tc : ℚ)
    (h1 : ¬(c1 = 0 ∧ c2 = 0))
    (h2 : min c1 c2 - 1/10^7 ≤ tc ∧ tc ≤ max c1 c2 + 1/10^7)
    (h3 : ¬ |c1 - c2| < 1/10^7) :
    (|c1 - tc| < 1/10^7 →
      solve_two_component_mixture c1 d1 c2 d2 tv tc "% (w/w)" =
        .error .targetEqualsComponent1)
  ∧ (¬ |c1 - tc| < 1/10^7 →
      solve_two_component_mixture c1 d1 c2 d2 tv tc "% (w/w)" =
        .ok (tv / ((tc - c2) / (c1 - tc) / d1 + 1 / d2) * ((tc - c2) / (c1 - tc)),
             tv / ((tc - c2) / (c1 - tc) / d1 + 1 / d2))) := by
  constructor
  · intro h4
    exact solve_ww_err c1 d1 c2 d2 tv tc h1 h2 h3 h4
  · intro h4
    exact solve_ww_formula c1 d1 c2 d2 tv tc h1 h2 h3 h4

/-- C4 witness: `c1 = 20, d1 = 1, c2 = 60, d2 = 2, tv = 100, tc = 40`
gives `ratio = 1`, `mass2 = 100 / (1 + 1/2) = 200/3` and
`mass1 = 200/3`. -/
theorem solve_weight_percent_correct_witness :
    solve_two_component_mixture 20 1 60 2 100 40 "% (w/w)" = .ok (200/3, 200/3) := by
  rw [(solve_weight_percent_correct 20 1 60 2 100 40 (by norm_num)
    (by constructor <;> norm_num) (by norm_num)).2 (by norm_num)]
  norm_num

end Mixconc

namespace Mixconc

/-- C5: in each of the three aggregation modes, every computed component
record with positive density satisfies `volumeML = massGrams / density`. -/
theorem record_volume_invariant :
    (∀ (m1 m2 : MaterialInput) (cu : String) (tv tc : ℚ) (recs : List ComputedRecord),
      solveModeRecords m1 m2 cu tv tc = .ok recs →
      ∀ r ∈ recs, 0 < r.density → r.volumeML = r.massGrams / r.density)
  ∧ (∀ (mats : List MaterialInput) (f : ℚ) (cu : String) (tv : ℚ),
      ∀ r ∈ scaleModeRecords mats f cu tv, 0 < r.density →
        r.volumeML = r.massGrams / r.density)
  ∧ (∀ (mats : List MaterialInput) (f : ℚ) (cu : String),
      ∀ r ∈ directModeRecords mats f cu, 0 < r.density →
        r.volumeML = r.massGrams / r.density) := by
  refine ⟨?_, ?_, ?_⟩
  · intro m1 m2 cu tv tc recs hok r hr _
    unfold solveModeRecords at hok
    rcases hs : solve_two_component_mixture m1.conc m1.density m2.conc m2.density tv tc cu with
      e | p
    · rw [hs] at hok; exact absurd hok (by simp)
    · rw [hs] at hok
      obtain ⟨g1, g2⟩ := p
      simp only [Except.ok.injEq] at hok
      subst hok
      simp only [List.mem_cons, List.not_mem_nil, or_false] at hr
      rcases hr with h | h
      · subst h; rfl
      · subst h; rfl
  · intro mats f cu tv r hr _
    unfold scaleModeRecords at hr
    obtain ⟨item, _, hitem⟩ := List.mem_map.mp hr
    subst hitem; rfl
  · intro mats f cu r hr _
    unfold directModeRecords at hr
    obtain ⟨item, _, hitem⟩ := List.mem_map.mp hr
    subst hitem; rfl

/-- C5 witness: a direct-mode record at a concrete component with positive
density satisfies the invariant. -/
theorem record_volume_invariant_witness :
    ∀ r ∈ directModeRecords [⟨5, 2, 4, 1⟩] 1 "g/L",
      0 < r.density → r.volumeML = r.massGrams / r.density :=
  record_volume_invariant.2.2 [⟨5, 2, 4, 1⟩] 1 "g/L"

/-- C6: the mixture totals (summed mass, volume and solute mass) are
invariant under any permutation of the computed component records. -/
theorem totals_perm_invariant (l1 l2 : List ComputedRecord) (h : l1.Perm l2) :
    mixtureTotals l1 = mixtureTotals l2 := by
  unfold mixtureTotals
  rw [(h.map (fun r => r.massGrams)).sum_eq, (h.map (fun r => r.volumeML)).sum_eq,
    (h.map (fun r => r.soluteMassGrams)).sum_eq]

/-- C6 witness: swapping two concrete records leaves the totals unchanged. -/
theorem totals_perm_invariant_witness :
    mixtureTotals [⟨1, 2, 3, 4, 5, 6, 7⟩, ⟨2, 3, 4, 5, 6, 7, 8⟩] =
      mixtureTotals [⟨2, 3, 4, 5, 6, 7, 8⟩, ⟨1, 2, 3, 4, 5, 6, 7⟩] :=
  totals_perm_invariant _ _
    (List.Perm.swap (⟨2, 3, 4, 5, 6, 7, 8⟩ : ComputedRecord)
      (⟨1, 2, 3, 4, 5, 6, 7⟩ : ComputedRecord) [])

/-- C7: the back-converter returns 0 whenever the total mass or the total
volume is at most `1e-9`, for every solute mass, target unit and reference
molar mass. -/
theorem convert_zero_guard (solute_g total_mass_g total_vol_ml : ℚ)
    (target_unit : String) (ref_molar_mass : ℚ)
    (h : total_mass_g ≤ 1/10^9 ∨ total_vol_ml ≤ 1/10^9) :
    convert_solute_to_target_unit solute_g total_mass_g total_vol_ml
      target_unit ref_molar_mass = 0 := by
  unfold convert_solute_to_target_unit
  rw [if_pos h]

/-- C7 witness: `convertToTargetUnit(5, 0, 0, "g/L", 58.44) = 0`. -/
theorem convert_zero_guard_witness :
    convert_solute_to_target_unit 5 0 0 "g/L" (58.44 : ℚ) = 0 :=
  convert_zero_guard 5 0 0 "g/L" (58.44 : ℚ) (Or.inl (by norm_num))

/-- Helper: `calculate_solute_mass` at total mass 0 is 0 for every unit. -/
theorem calc_solute_mass_at_zero (conc : ℚ) (unit : String) (molar_mass density : ℚ) :
    calculate_solute_mass conc unit molar_mass density 0 = 0 := by
  unfold calculate_solute_mass
  cases CONC_MASS_UNIT_TO_G_PER_L unit with
  | some conv => simp
  | none => simp

/-- C8: in scale mode, when the sum of declared volumes is 0 (as when every
declared mass is 0), the scale factor is 0 and every record's mass, volume
and solute mass are 0; all values are defined, none is an error. -/
theorem scale_mode_degenerate (mats : List MaterialInput) (f cu_tv : ℚ)
    (cu : String) (h : scaleBaseVol mats f = 0) :
    scalingFactor mats f cu_tv = 0 ∧
    ∀ r ∈ scaleModeRecords mats f cu cu_tv,
      r.massGrams = 0 ∧ r.volumeML = 0 ∧ r.soluteMassGrams = 0 := by
  have hsf : scalingFactor mats f cu_tv = 0 := by
    unfold scalingFactor
    rw [if_neg (by rw [h]; exact lt_irrefl 0)]
  refine ⟨hsf, ?_⟩
  intro r hr
  unfold scaleModeRecords at hr
  obtain ⟨item, _, hitem⟩ := List.mem_map.mp hr
  rw [hsf, mul_zero] at hitem
  subst hitem
  exact ⟨rfl, zero_div _, calc_solute_mass_at_zero _ _ _ _⟩

/-- C8 witness: two components with declared mass 0 in scale mode yield
scale factor 0 and all-zero records. -/
theorem scale_mode_degenerate_witness :
    scalingFactor [⟨10, 0, 1, 1⟩, ⟨20, 0, 2, 1⟩] 1 50 = 0 ∧
    ∀ r ∈ scaleModeRecords [⟨10, 0, 1, 1⟩, ⟨20, 0, 2, 1⟩] 1 "g/L" 50,
      r.massGrams = 0 ∧ r.volumeML = 0 ∧ r.soluteMassGrams = 0 :=
  scale_mode_degenerate [⟨10, 0, 1, 1⟩, ⟨20, 0, 2, 1⟩] 1 50 "g/L"
    (by unfold scaleBaseVol; norm_num)

end Mixconc

namespace Mixconc

/-! Helper lemmas: per-unit evaluation of the back-converter once the
near-zero guard is known not to fire. -/

/-- Back-converter at target unit g/L. -/
theorem convert_eval_gL (s M V mm : ℚ) (hg : ¬(M ≤ 1/10^9 ∨ V ≤ 1/10^9)) :
    convert_solute_to_target_unit s M V "g/L" mm = s / (V / 1000) := by
  unfold convert_solute_to_target_unit
  rw [if_neg hg, if_neg (by decide : ¬("g/L" : String) = "% (w/w)"),
    if_neg (by decide : ¬("g/L" : String) = "% (v/v)"), if_pos rfl]

/-- Back-converter at target unit mg/L. -/
theorem convert_eval_mgL (s M V mm : ℚ) (hg : ¬(M ≤ 1/10^9 ∨ V ≤ 1/10^9)) :
    convert_solute_to_target_unit s M V "mg/L" mm = (s * 1000) / (V / 1000) := by
  unfold convert_solute_to_target_unit
  rw [if_neg hg, if_neg (by decide : ¬("mg/L" : String) = "% (w/w)"),
    if_neg (by decide : ¬("mg/L" : String) = "% (v/v)"),
    if_neg (by decide : ¬("mg/L" : String) = "g/L"), if_pos rfl]

/-- Back-converter at target unit μg/L. -/
theorem convert_eval_ugL (s M V mm : ℚ) (hg : ¬(M ≤ 1/10^9 ∨ V ≤ 1/10^9)) :
    convert_solute_to_target_unit s M V "μg/L" mm = (s * 1000000) / (V / 1000) := by
  unfold convert_solute_to_target_unit
  rw [if_neg hg, if_neg (by decide : ¬("μg/L" : String) = "% (w/w)"),
    if_neg (by decide : ¬("μg/L" : String) = "% (v/v)"),
    if_neg (by decide : ¬("μg/L" : String) = "g/L"),
    if_neg (by decide : ¬("μg/L" : String) = "mg/L"), if_pos rfl]

/-- Back-converter at target unit mol/L. -/
theorem convert_eval_molL (s M V mm : ℚ) (hg : ¬(M ≤ 1/10^9 ∨ V ≤ 1/10^9)) :
    convert_solute_to_target_unit s M V "mol/L" mm = (s / mm) / (V / 1000) := by
  unfold convert_solute_to_target_unit
  rw [if_neg hg, if_neg (by decide : ¬("mol/L" : String) = "% (w/w)"),
    if_neg (by decide : ¬("mol/L" : String) = "% (v/v)"),
    if_neg (by decide : ¬("mol/L" : String) = "g/L"),
    if_neg (by decide : ¬("mol/L" : String) = "mg/L"),
    if_neg (by decide : ¬("mol/L" : String) = "μg/L"), if_pos rfl]

/-- Back-converter at target unit mmol/L. -/
theorem convert_eval_mmolL (s M V mm : ℚ) (hg : ¬(M ≤ 1/10^9 ∨ V ≤ 1/10^9)) :
    convert_solute_to_target_unit s M V "mmol/L" mm = ((s / mm) * 1000) / (V / 1000) := by
  unfold convert_solute_to_target_unit
  rw [if_neg hg, if_neg (by decide : ¬("mmol/L" : String) = "% (w/w)"),
    if_neg (by decide : ¬("mmol/L" : String) = "% (v/v)"),
    if_neg (by decide : ¬("mmol/L" : String) = "g/L"),
    if_neg (by decide : ¬("mmol/L" : String) = "mg/L"),
    if_neg (by decide : ¬("mmol/L" : String) = "μg/L"),
    if_neg (by decide : ¬("mmol/L" : String) = "mol/L"), if_pos rfl]

/-- C2 counterexample: the round-trip identity fails as stated when the
total mass is positive but at most `1e-9`; at `c = 1`, unit g/L,
`d = 1`, `totalMass = 1e-10` the back-converter's zero guard fires and
the round trip returns 0, not 1. -/
theorem roundtrip_tiny_mass_fails :
    (0 : ℚ) < 1 ∧ (0 : ℚ) < 1 ∧ (0 : ℚ) < 1/10^10 ∧ (0 : ℚ) < (58.44 : ℚ) ∧
    convert_solute_to_target_unit (calculate_solute_mass 1 "g/L" (58.44 : ℚ) 1 (1/10^10))
        (1/10^10) (1/10^10 / 1) "g/L" (58.44 : ℚ) = 0 ∧
    ¬ |convert_solute_to_target_unit (calculate_solute_mass 1 "g/L" (58.44 : ℚ) 1 (1/10^10))
        (1/10^10) (1/10^10 / 1) "g/L" (58.44 : ℚ) - 1| < 1/10^6 := by
  have h0 : convert_solute_to_target_unit (calculate_solute_mass 1 "g/L" (58.44 : ℚ) 1 (1/10^10))
      (1/10^10) (1/10^10 / 1) "g/L" (58.44 : ℚ) = 0 := by
    unfold convert_solute_to_target_unit
    rw [if_pos (Or.inl (by norm_num))]
  refine ⟨by norm_num, by norm_num, by norm_num, by norm_num, h0, ?_⟩
  rw [h0]
  norm_num

/-- C2 (amended): the round-trip identity holds for every
mass-concentration and molar target unit once the totals clear the
back-converter's `1e-9` guard: for `c, d, totalMass, mm > 0` with
`totalMass > 1e-9` and `totalMass/d > 1e-9`, converting the forward
solute mass back yields exactly `c`. -/
theorem roundtrip_mass_and_molar_units (c mm d M : ℚ) (u : String)
    (hu : u = "g/L" ∨ u = "mg/L" ∨ u = "μg/L" ∨ u = "mol/L" ∨ u = "mmol/L")
    (hc : 0 < c) (hd : 0 < d) (hM : 0 < M) (hmm : 0 < mm)
    (hM9 : 1/10^9 < M) (hV9 : 1/10^9 < M / d) :
    convert_solute_to_target_unit (calculate_solute_mass c u mm d M) M (M / d) u mm = c := by
  have hg : ¬(M ≤ 1/10^9 ∨ M / d ≤ 1/10^9) := by push_neg; exact ⟨hM9, hV9⟩
  have hv : (0 : ℚ) < M / d := lt_trans (by norm_num) hV9
  have hvne : M / d ≠ 0 := ne_of_gt hv
  have hmmne : mm ≠ 0 := ne_of_gt hmm
  rcases hu with h | h | h | h | h <;> subst h
  · show convert_solute_to_target_unit ((c * 1) * ((M / d) / 1000)) M (M / d) "g/L" mm = c
    rw [convert_eval_gL _ _ _ _ hg]
    field_simp
  · show convert_solute_to_target_unit ((c * (1/1000)) * ((M / d) / 1000)) M (M / d) "mg/L" mm = c
    rw [convert_eval_mgL _ _ _ _ hg]
    field_simp
    ring
  · show convert_solute_to_target_unit ((c * (1/1000000)) * ((M / d) / 1000)) M (M / d) "μg/L" mm = c
    rw [convert_eval_ugL _ _ _ _ hg]
    field_simp
    ring
  · show convert_solute_to_target_unit ((c * 1) * ((M / d) / 1000) * mm) M (M / d) "mol/L" mm = c
    rw [convert_eval_molL _ _ _ _ hg]
    field_simp
    ring
  · show convert_solute_to_target_unit ((c * (1/1000)) * ((M / d) / 1000) * mm) M (M / d) "mmol/L" mm = c
    rw [convert_eval_mmolL _ _ _ _ hg]
    field_simp
    ring

/-- C2 witness: `c = 2` mol/L, `mm = 10`, `d = 1`, `totalMass = 1000`
round-trips to exactly 2. -/
theorem roundtrip_mass_and_molar_units_witness :
    convert_solute_to_target_unit (calculate_solute_mass 2 "mol/L" 10 1 1000)
      1000 (1000 / 1) "mol/L" 10 = 2 :=
  roundtrip_mass_and_molar_units 2 10 1 1000 "mol/L"
    (Or.inr (Or.inr (Or.inr (Or.inl rfl)))) (by norm_num) (by norm_num)
    (by norm_num) (by norm_num) (by norm_num) (by norm_num)

end Mixconc

namespace Mixconc

/-- C9 counterexample: the claimed behaviour cannot occur — for a target
concentration strictly between the two components' concentrations, a
successful volume-based solve never returns a negative mass (hence never a
negative volume for components of positive density). -/
theorem solve_strictly_between_never_negative :
    ¬ ∃ (c1 d1 c2 d2 tv tc m1 m2 : ℚ) (u : String),
        u ≠ "% (w/w)" ∧ 0 < d1 ∧ 0 < d2 ∧ 0 ≤ tv ∧
        ¬(c1 = 0 ∧ c2 = 0) ∧ c1 ≠ c2 ∧
        min c1 c2 < tc ∧ tc < max c1 c2 ∧
        solve_two_component_mixture c1 d1 c2 d2 tv tc u = .ok (m1, m2) ∧
        (m1 < 0 ∨ m2 < 0) := by
  rintro ⟨c1, d1, c2, d2, tv, tc, m1, m2, u, hu, hd1, hd2, htv, hnz, hne, hlo, hhi, hok, hneg⟩
  have heps : (0 : ℚ) < 1/10^7 := by norm_num
  have h2 : min c1 c2 - 1/10^7 ≤ tc ∧ tc ≤ max c1 c2 + 1/10^7 :=
    ⟨by linarith, by linarith⟩
  by_cases h3 : |c1 - c2| < 1/10^7
  · rw [solve_err_identical c1 d1 c2 d2 tv tc u hnz h2 h3] at hok
    exact Except.noConfusion hok
  · rw [solve_vol_formula c1 d1 c2 d2 tv tc u hu hnz h2 h3] at hok
    simp only [Except.ok.injEq, Prod.mk.injEq] at hok
    obtain ⟨hm1, hm2⟩ := hok
    have hr : 0 ≤ (tc - c2) / (c1 - c2) ∧ (tc - c2) / (c1 - c2) ≤ 1 := by
      rcases lt_or_gt_of_ne hne with hlt | hgt
      · rw [min_eq_left hlt.le] at hlo
        rw [max_eq_right hlt.le] at hhi
        constructor
        · exact div_nonneg_iff.mpr (Or.inr ⟨by linarith, by linarith⟩)
        · exact div_le_one_iff.mpr (Or.inr (Or.inr ⟨by linarith, by linarith⟩))
      · rw [min_eq_right hgt.le] at hlo
        rw [max_eq_left hgt.le] at hhi
        constructor
        · exact div_nonneg (by linarith) (by linarith)
        · exact (div_le_one (by linarith)).mpr (by linarith)
    have hv1 : 0 ≤ tv * (tc - c2) / (c1 - c2) := by
      rw [mul_div_assoc]
      exact mul_nonneg htv hr.1
    have hv1le : tv * (tc - c2) / (c1 - c2) ≤ tv := by
      rw [mul_div_assoc]
      exact mul_le_of_le_one_right htv hr.2
    have hm1nn : 0 ≤ m1 := hm1 ▸ mul_nonneg hv1 hd1.le
    have hm2nn : 0 ≤ m2 := hm2 ▸ mul_nonneg (by linarith) hd2.le
    rcases hneg with h | h
    · linarith
    · linarith

/-- C9 (amended): a successful volume-based solve can return a negative
component mass (hence volume) when the target concentration lies in the
`1e-7` tolerance band just outside `[min(c1,c2), max(c1,c2)]` — not
strictly between them; witnessed at `c1 = 0, c2 = 100, tv = 100,
tc = 100 + 5e-8`, where `mass1 = -5e-8 < 0`. -/
theorem solve_negative_mass_in_tolerance_band :
    ∃ (c1 d1 c2 d2 tv tc m1 m2 : ℚ) (u : String),
      u ≠ "% (w/w)" ∧ 0 < d1 ∧ 0 < d2 ∧ 0 ≤ tv ∧
      ¬(c1 = 0 ∧ c2 = 0) ∧ c1 ≠ c2 ∧
      max c1 c2 < tc ∧ tc ≤ max c1 c2 + 1/10^7 ∧
      solve_two_component_mixture c1 d1 c2 d2 tv tc u = .ok (m1, m2) ∧
      m1 < 0 := by
  refine ⟨0, 1, 100, 1, 100, 100 + 1/(2 * 10^7), -(1/(2 * 10^7)), 100 + 1/(2 * 10^7),
    "g/L", by decide, by norm_num, by norm_num, by norm_num, by norm_num, by norm_num,
    ?_, ?_, ?_, by norm_num⟩
  · rw [max_eq_right (by norm_num : (0 : ℚ) ≤ 100)]
    norm_num
  · rw [max_eq_right (by norm_num : (0 : ℚ) ≤ 100)]
    norm_num
  · rw [solve_vol_formula 0 1 100 1 100 (100 + 1/(2 * 10^7)) "g/L" (by decide)
      (by norm_num) ⟨by norm_num, by norm_num⟩ (by norm_num)]
    norm_num

/-- C10: in exact arithmetic the forward solute-mass calculator returns the
same value for the volume-percent unit as for the weight-percent unit
whenever the density is nonzero: `((M/d) * (c/100)) * d = (c/100) * M`. -/
theorem percent_units_agree (c mm d M : ℚ) (hd : d ≠ 0) :
    calculate_solute_mass c "% (v/v)" mm d M = calculate_solute_mass c "% (w/w)" mm d M := by
  show ((c / 100) * (M / d)) * d = (c / 100) * M
  field_simp
  ring

/-- C10 witness: at `c = 50, d = 2, M = 10` the two percent branches agree. -/
theorem percent_units_agree_witness :
    calculate_solute_mass 50 "% (v/v)" 1 2 10 = calculate_solute_mass 50 "% (w/w)" 1 2 10 :=
  percent_units_agree 50 1 2 10 (by norm_num)

end Mixconc
